import Mathlib

/-!
Verification of the `greeter` package
(`src/py/packages/greeter/src/greeter/__init__.py`).

The whole source is:

  from example import hello as example_hello
  __version__ = "0.1.0"
  def greet() -> str:
      return f"Greeter says: \x7bexample_hello()\x7d"

The external `hello` capability lives in the collaborator package
`example`, outside this repository's sources, so `greet` is embedded as
a function of the outcome of the `hello()` call.  A Python call either
raises an exception or returns a Python value; the f-string then formats
the value with its default (str-like) conversion.
-/

/-- A Python exception, abstracted to its class name and message.
`greet` never inspects exceptions, so only identity matters here. -/
inductive PyErr where
  | exc (name : String) (msg : String)
deriving DecidableEq, Repr

/-- The Python values the embedding needs: the dependency contract says
`hello` returns a string, but Python also lets any other value flow into
the f-string, so a few representative non-string values are included. -/
inductive PyValue where
  | str (s : String)
  | int (n : Int)
  | bool (b : Bool)
  | none
deriving DecidableEq, Repr

/-- Whether a Python value is a string (`isinstance(v, str)`). -/
def PyValue.isStr : PyValue → Bool
  | .str _ => true
  | _ => false

/-- Python's default conversion of a value to text, as the f-string
`f"... \x7bv\x7d"` performs it: a string is inserted verbatim, an int prints
in decimal with a leading minus when negative, booleans print as `True`
and `False`, and `None` prints as `None`. -/
def pyStr : PyValue → String
  | .str s => s
  | .int n => toString n
  | .bool true => "True"
  | .bool false => "False"
  | .none => "None"

/-- Outcome of one call of the external `hello()` capability: either it
raises an exception or it returns a Python value. -/
abbrev HelloOutcome := Except PyErr PyValue

/-- `__version__ = "0.1.0"` from the source module. -/
def __version__ : String := "0.1.0"

/-- `def greet() -> str: return f"Greeter says: \x7bexample_hello()\x7d"`,
embedded as a function of the outcome of the `example_hello()` call.
If the call raises, the f-string is never built and the exception
propagates; otherwise the result is formatted into the template. -/
def greet : HelloOutcome → Except PyErr String
  | .error e => .error e
  | .ok v => .ok ("Greeter says: " ++ pyStr v)

/-- Stateful embedding of one call of `greet()`: the external call may
read and update an ambient state of any type `S` (the `example` module's
internals, a counter, the outside world).  The body of `greet` evaluates
`example_hello()` exactly once and then only builds the f-string, so the
state is threaded through the single external call and nothing else. -/
def greetSt {S : Type} (hello : S → HelloOutcome × S) (s : S) :
    Except PyErr String × S :=
  let r := hello s
  (greet r.1, r.2)

/-- C1: for every string s returned by the external hello() operation,
greet() returns exactly the string "Greeter says: " + s. -/
theorem greet_of_str (s : String) :
    greet (Except.ok (PyValue.str s)) = Except.ok ("Greeter says: " ++ s) :=
  rfl

/-- C2: if invoking hello() fails with any exception, greet() fails and
does not return a string, and the very same exception propagates
unchanged to the caller: no retry, no fallback value, no added context. -/
theorem greet_of_error (e : PyErr) :
    greet (Except.error e) = Except.error e :=
  rfl

/-- C3 counterexample: hello() returning the non-string value 5 does not
make greet() fail; the f-string coerces it and greet() returns the
string "Greeter says: 5". -/
theorem greet_nonstring_counterexample :
    greet (Except.ok (PyValue.int 5)) = Except.ok "Greeter says: 5" :=
  rfl

/-- C3 amended: if hello() returns a non-string value, greet() does not
fail; the f-string coerces the value with Python's default string
conversion and greet() returns "Greeter says: " + str(value). -/
theorem greet_of_nonstring (v : PyValue) (_h : v.isStr = false) :
    greet (Except.ok v) = Except.ok ("Greeter says: " ++ pyStr v) :=
  rfl

/-- C3 amended, witness at the concrete non-string value 5. -/
theorem greet_of_nonstring_witness :
    greet (Except.ok (PyValue.int 5)) =
      Except.ok ("Greeter says: " ++ pyStr (PyValue.int 5)) :=
  greet_of_nonstring (PyValue.int 5) rfl

/-- C4: whenever greet() returns a string, the returned string begins
with the literal prefix "Greeter says: ". -/
theorem greet_result_has_prefix (r : HelloOutcome) (out : String)
    (h : greet r = Except.ok out) :
    ∃ rest : String, out = "Greeter says: " ++ rest := by
  cases r with
  | error e => simp [greet] at h
  | ok v =>
      simp only [greet, Except.ok.injEq] at h
      exact ⟨pyStr v, h.symm⟩

/-- C4 witness: the prefix guarantee, applied at hello() = "world". -/
theorem greet_result_has_prefix_witness :
    ∃ rest : String, "Greeter says: world" = "Greeter says: " ++ rest :=
  greet_result_has_prefix (Except.ok (PyValue.str "world"))
    "Greeter says: world" rfl

/-- C5: if hello() returns the empty string, greet() returns exactly the
bare prefix "Greeter says: " with nothing after it. -/
theorem greet_of_empty :
    greet (Except.ok (PyValue.str "")) = Except.ok "Greeter says: " :=
  rfl

/-- C6: two successive calls of greet() with no intervening state change
yield identical results, provided hello() is idempotent, i.e. the two
hello() calls produce the same outcome. -/
theorem greet_idempotent (r₁ r₂ : HelloOutcome) (h : r₁ = r₂) :
    greet r₁ = greet r₂ :=
  congrArg greet h

/-- C6 witness: idempotence at two hello() calls both returning
"world". -/
theorem greet_idempotent_witness :
    greet (Except.ok (PyValue.str "world")) =
      greet (Except.ok (PyValue.str "world")) :=
  greet_idempotent (Except.ok (PyValue.str "world"))
    (Except.ok (PyValue.str "world")) rfl

/-- C7: the exposed version constant equals "0.1.0" and is non-empty.
It is a plain module-level constant, so repeated reads within a process
lifetime always see this same value. -/
theorem version_fixed :
    __version__ = "0.1.0" ∧ __version__ ≠ "" := by
  constructor
  · rfl
  · decide

/-- C8: greet() has no side effects of its own: whatever ambient state
the single delegated hello() call leaves behind is exactly the state
after greet() returns; greet() itself performs no further I/O and
mutates nothing. -/
theorem greet_frame {S : Type} (hello : S → HelloOutcome × S) (s : S) :
    (greetSt hello s).2 = (hello s).2 :=
  rfl

/-- C9: greet() invokes the external hello() operation exactly once per
call and terminates right after: instrumenting the state with a counter
that each hello() call increments, one call of greet() raises the
counter by exactly one, whatever hello() returns. -/
theorem greet_calls_hello_once (v : HelloOutcome) (n : ℕ) :
    (greetSt (fun k => (v, k + 1)) n).2 = n + 1 :=
  rfl

/-- C10: determinism relative to the dependency: any two invocations of
greet(), over arbitrary and possibly different ambient states, in which
the hello() call produces the same outcome, return identical results;
the output depends on nothing but hello()'s outcome. -/
theorem greet_deterministic {S₁ S₂ : Type}
    (hello₁ : S₁ → HelloOutcome × S₁) (hello₂ : S₂ → HelloOutcome × S₂)
    (s₁ : S₁) (s₂ : S₂) (h : (hello₁ s₁).1 = (hello₂ s₂).1) :
    (greetSt hello₁ s₁).1 = (greetSt hello₂ s₂).1 :=
  congrArg greet h

/-- C10 witness: determinism at two concrete stateful hello()
implementations over different state types that both return "world". -/
theorem greet_deterministic_witness :
    (greetSt (fun k : ℕ => (Except.ok (PyValue.str "world"), k + 1)) 0).1 =
      (greetSt (fun u : Unit => (Except.ok (PyValue.str "world"), u)) ()).1 :=
  greet_deterministic
    (fun k : ℕ => (Except.ok (PyValue.str "world"), k + 1))
    (fun u : Unit => (Except.ok (PyValue.str "world"), u)) 0 () rfl
